import Mathlib

/-!
Shallow embedding of the transactional commerce core of the
AI-Automated-Ecommerce backend: the relational data model
(`app/models`), the storefront order placement endpoint
(`app/api/endpoints/orders.py`), the admin status-update endpoint
(`app/api/endpoints/admin.py`), and the conversational tools
(`app/services/tools/transaction_tools.py`).

The database is modelled as an explicit state (`DB`); every endpoint or
tool becomes a pure function from a `DB` (plus its request arguments)
to a result and a new `DB`.  SQLAlchemy sessions commit atomically and
roll back on error, so an operation that raises returns the original
state unchanged.  The session is configured with `autoflush = False`,
so inside a single tool call a query does not see rows `add`ed but not
yet committed; `add_to_cart` models this with an explicit pending list.
Prices are SQL `Numeric(10,2)` decimals — exact two-decimal values —
modelled as integer cent amounts.
-/

namespace Ecom

/-- Python truthiness of a nullable string column: `None` and `""` are falsy. -/
def truthy : Option String → Bool
  | none => false
  | some s => !s.isEmpty

/-- Python `str.upper()` (ASCII; statuses and names here are ASCII). -/
def pyUpper (s : String) : String := String.mk (s.data.map Char.toUpper)

/-- Python `str.lower()` (ASCII). -/
def pyLower (s : String) : String := String.mk (s.data.map Char.toLower)

/-- Splitter underlying Python `str.split(sep)` for a one-character
separator, on character lists. -/
def splitChar (sep : Char) : List Char → List (List Char)
  | [] => [[]]
  | c :: t =>
    let r := splitChar sep t
    if c == sep then [] :: r
    else
      match r with
      | h :: t2 => (c :: h) :: t2
      | [] => [[c]]

/-- Python `s.split(',')`. -/
def pySplitComma (s : String) : List String := (splitChar ',' s.data).map String.mk

/-- `OrderStatus` enum from `app/models/models.py` (after the
`migrate_add_payment_review_status.py` migration added
`PAYMENT_REVIEW_REQUESTED`). -/
inductive OrderStatus where
  | PENDING
  | PAYMENT_REVIEW_REQUESTED
  | PAID
  | SHIPPED
  | COMPLETED
  | CANCELLED
deriving Repr, DecidableEq

/-- `.value` of the Python enum member. -/
def OrderStatus.valueStr : OrderStatus → String
  | .PENDING => "PENDING"
  | .PAYMENT_REVIEW_REQUESTED => "PAYMENT_REVIEW_REQUESTED"
  | .PAID => "PAID"
  | .SHIPPED => "SHIPPED"
  | .COMPLETED => "COMPLETED"
  | .CANCELLED => "CANCELLED"

/-- `Product` row: id, name, price (`Numeric(10,2)`, in cents), stock,
active flag. -/
structure Product where
  id : Nat
  name : String
  price : Int
  stockQuantity : Int
  isActive : Bool
deriving Repr, DecidableEq

/-- `User` row; `email`, `name`, `address` are nullable columns. -/
structure User where
  id : Nat
  phoneNumber : String
  email : Option String
  name : Option String
  address : Option String
deriving Repr, DecidableEq

/-- `Order` row.  `createdAt` is a logical timestamp (creation order). -/
structure Order where
  id : Nat
  userId : Option Nat
  customerName : Option String
  customerEmail : Option String
  customerPhone : Option String
  shippingAddress : Option String
  paymentMethod : Option String
  status : OrderStatus
  totalAmount : Int
  paymentRef : Option String
  paymentReceiptUrl : Option String
  createdAt : Nat
deriving Repr, DecidableEq

/-- `OrderItem` row: per-line quantity and unit-price snapshot. -/
structure OrderItem where
  id : Nat
  orderId : Nat
  productId : Nat
  quantity : Int
  unitPrice : Int
deriving Repr, DecidableEq

/-- `Cart` row, keyed by the customer's phone. -/
structure Cart where
  id : Nat
  user_phone : String
deriving Repr, DecidableEq

/-- `CartItem` row. -/
structure CartItem where
  id : Nat
  cart_id : Nat
  product_id : Nat
  quantity : Int
deriving Repr, DecidableEq

/-- `BusinessSettings` row (only the field the tools read). -/
structure BusinessSettings where
  id : Nat
  bank_details : Option String
deriving Repr, DecidableEq

/-- The relational state.  Lists keep insertion order, which is the
order `query(...).first()` scans rows in.  `nextId` is the
auto-increment counter used for new primary keys and for the logical
`createdAt` timestamps. -/
structure DB where
  products : List Product
  users : List User
  orders : List Order
  orderItems : List OrderItem
  carts : List Cart
  cartItems : List CartItem
  settingsRows : List BusinessSettings
  nextId : Nat
deriving Repr, DecidableEq

/-- `db.query(Product).filter(Product.isActive == True).all()`. -/
def activeProducts (db : DB) : List Product :=
  db.products.filter (·.isActive)

/-- The `CartItem` rows of one cart (the `cart.items` relationship). -/
def cartItemsOf (db : DB) (c : Cart) : List CartItem :=
  db.cartItems.filter (fun ci => ci.cart_id == c.id)

/-! ## Admin order-status update (`app/api/endpoints/admin.py`, `update_order_status`) -/

/-- The `valid_statuses` list hard-coded in `update_order_status`. -/
def valid_statuses : List String :=
  ["PENDING", "PAYMENT_REVIEW_REQUESTED", "PAID", "SHIPPED", "COMPLETED", "CANCELLED"]

/-- SQLAlchemy's coercion of a string in `valid_statuses` into the
`OrderStatus` enum column (match by enum value). -/
def statusOfValue (s : String) : OrderStatus :=
  if s == "PENDING" then .PENDING
  else if s == "PAYMENT_REVIEW_REQUESTED" then .PAYMENT_REVIEW_REQUESTED
  else if s == "PAID" then .PAID
  else if s == "SHIPPED" then .SHIPPED
  else if s == "COMPLETED" then .COMPLETED
  else .CANCELLED

deriving instance DecidableEq for Except

/-- Outcome of the status-update endpoint.  `result` is the HTTP
response (`error (code, detail)` for an `HTTPException`).  `db` is the
state after the handler returns.  `notifAttempt` records, when the
handler reached `send_reply`, the committed database state at that
moment (`none` when no notification was attempted); the WhatsApp
transport itself is outside the handler and its failure is caught. -/
structure StatusOutcome where
  result : Except (Nat × String) String
  db : DB
  notifAttempt : Option DB
deriving Repr, DecidableEq

/-- `PUT /admin/orders/{order_id}/status`.  `notifyOk` is the outcome
of the `send_reply` transport call; the `except` block around it
swallows a failure, so the handler's response and the committed state
do not depend on it. -/
def update_order_status (db : DB) (order_id : Nat) (status : String) (notifyOk : Bool) :
    StatusOutcome :=
  match db.orders.find? (fun o => o.id == order_id) with
  | none => ⟨.error (404, "Order not found"), db, none⟩
  | some order =>
    let new_status := pyUpper status
    if !(valid_statuses.contains new_status) then
      ⟨.error (400, "Invalid status"), db, none⟩
    else
      let old_status := order.status.valueStr
      -- `order.status = new_status; db.commit()` — committed before any notification
      let db' := { db with
        orders := db.orders.map (fun o =>
          if o.id == order.id then { o with status := statusOfValue new_status } else o) }
      let attempt :=
        if new_status == "PAID" && old_status == "PAYMENT_REVIEW_REQUESTED"
            && truthy order.customerPhone then
          some db'
        else none
      let _ := notifyOk
      ⟨.ok "success", db', attempt⟩

/-! ## Storefront order placement (`app/api/endpoints/orders.py`, `place_order`) -/

/-- One entry of `PlaceOrderRequest.items` (`OrderItemSchema`). -/
structure ReqItem where
  product_id : Nat
  quantity : Int
deriving Repr, DecidableEq

/-- `PlaceOrderRequest` (`app/schemas/schemas.py`); `user_name`,
`shipping_address`, `payment_method` are required strings, `user_email`
is optional. -/
structure PlaceOrderRequest where
  user_phone : String
  user_name : String
  user_email : Option String
  shipping_address : String
  payment_method : String
  items : List ReqItem
deriving Repr, DecidableEq

/-- Response of the handler: `ok` carries the new order id and the
total, `err` an `HTTPException`'s status code and detail. -/
inductive PlaceResult where
  | ok (order_id : Nat) (total : Int)
  | err (code : Nat) (detail : String)
deriving Repr, DecidableEq

/-- Whether the handler raised an `HTTPException`. -/
def PlaceResult.isErr : PlaceResult → Bool
  | .ok _ _ => false
  | .err _ _ => true

/-- Step 1 of `place_order`: validate every requested item against the
catalog (`exists ∧ isActive`, then `stockQuantity ≥ quantity`) before
any write; the first failure raises.  Returns the `items_to_process`
list of (live product, requested quantity) pairs. -/
def validateItems (db : DB) : List ReqItem → Except (Nat × String) (List (Product × Int))
  | [] => .ok []
  | it :: rest =>
    match db.products.find? (fun p => p.id == it.product_id && p.isActive) with
    | none =>
      .error (404, "Product with ID " ++ toString it.product_id ++ " not found or inactive")
    | some p =>
      if p.stockQuantity < it.quantity then
        .error (400, "Insufficient stock for " ++ p.name ++ ". Available: "
          ++ toString p.stockQuantity ++ ", Requested: " ++ toString it.quantity)
      else
        (validateItems db rest).map (fun tl => (p, it.quantity) :: tl)

/-- Step 2 of `place_order` on an existing user: `user.name` and
`user.address` are overwritten whenever the request value is truthy;
`user.email` only when the request value is truthy and the stored one
is not. -/
def updateExistingUser (u : User) (req : PlaceOrderRequest) : User :=
  let u1 := if !req.user_name.isEmpty then { u with name := some req.user_name } else u
  let u2 := if !req.shipping_address.isEmpty then
      { u1 with address := some req.shipping_address } else u1
  if truthy req.user_email && !(truthy u2.email) then
    { u2 with email := req.user_email }
  else u2

/-- Step 4a: the `OrderItem` rows created for `items_to_process`, with
ids assigned consecutively from `k`. -/
def mkOrderItems (oid : Nat) (k : Nat) : List (Product × Int) → List OrderItem
  | [] => []
  | pq :: rest =>
    ⟨k, oid, pq.1.id, pq.2, pq.1.price⟩ :: mkOrderItems oid (k + 1) rest

/-- Step 4b: `product.stockQuantity -= quantity`, applied per processed
item on the live objects (duplicate product ids accumulate). -/
def decStocks (ps : List Product) : List (Product × Int) → List Product
  | [] => ps
  | pq :: rest =>
    decStocks
      (ps.map (fun p =>
        if p.id == pq.1.id then { p with stockQuantity := p.stockQuantity - pq.2 } else p))
      rest

/-- Total computed in step 1: running sum of `price * quantity` (the
source accumulates it as a Python float; modelled exactly in cents). -/
def orderTotal (lines : List (Product × Int)) : Int :=
  lines.foldl (fun t pq => t + pq.1.price * pq.2) 0

/-- `POST /orders/place`.  All writes of one call sit in one SQLAlchemy
transaction: `db.flush()` only assigns ids, the single `db.commit()`
makes them durable, and every `except` arm calls `db.rollback()`.
`commitOk` models whether the storage layer raises at commit time
(`SQLAlchemyError` → HTTP 500). -/
def place_order (db : DB) (req : PlaceOrderRequest) (commitOk : Bool) :
    PlaceResult × DB :=
  match validateItems db req.items with
  | .error cd => (.err cd.1 cd.2, db)
  | .ok lines =>
    let total := orderTotal lines
    -- Step 2: find or create the user (pending in the session)
    let found := db.users.find? (fun u => u.phoneNumber == req.user_phone)
    let uid := match found with
      | some u => u.id
      | none => db.nextId
    let users' := match found with
      | some u => db.users.map (fun x => if x.id == u.id then updateExistingUser u req else x)
      | none => db.users ++ [⟨db.nextId, req.user_phone, req.user_email,
          some req.user_name, some req.shipping_address⟩]
    let n1 := match found with
      | some _ => db.nextId
      | none => db.nextId + 1
    -- Step 3: create the order (status PENDING, snapshot of the request)
    let oid := n1
    let order : Order :=
      { id := oid, userId := some uid, customerName := some req.user_name,
        customerEmail := req.user_email, customerPhone := some req.user_phone,
        shippingAddress := some req.shipping_address,
        paymentMethod := some req.payment_method, status := .PENDING,
        totalAmount := total, paymentRef := none, paymentReceiptUrl := none,
        createdAt := oid }
    -- Step 4: order items and stock decrements, then the single commit
    let ois := mkOrderItems oid (n1 + 1) lines
    let prods' := decStocks db.products lines
    if commitOk then
      (.ok oid total,
        { db with
            users := users',
            orders := db.orders ++ [order],
            orderItems := db.orderItems ++ ois,
            products := prods',
            nextId := n1 + 1 + lines.length })
    else
      (.err 500 "Database error occurred while placing order", db)

/-! ## Conversational cart tools
(`app/services/tools/transaction_tools.py`) -/

/-- Python `str.strip()` / `\s` whitespace (ASCII part). -/
def pyWhitespaceChar (c : Char) : Bool :=
  c == ' ' || c == '\t' || c == '\n' || c == '\r' || c == '\x0b' || c == '\x0c'

/-- Python `str.strip()`. -/
def pyStrip (s : String) : String :=
  String.mk (((s.data.dropWhile pyWhitespaceChar).reverse.dropWhile pyWhitespaceChar).reverse)

/-- `int()` of a nonempty digit string. -/
def natOfDigits (l : List Char) : Nat :=
  l.foldl (fun n c => n * 10 + (c.toNat - 48)) 0

/-- Continuation of the regex `(\d+)\s*[xX]?\s*(.*)` after the digit
group: greedy whitespace, one optional `x`/`X`, greedy whitespace, then
`.*` (which stops at a newline). -/
def afterDigits (rest : List Char) : List Char :=
  let r1 := rest.dropWhile pyWhitespaceChar
  let r2 := match r1 with
    | c :: t => if c == 'x' || c == 'X' then t else r1
    | [] => []
  let r3 := r2.dropWhile pyWhitespaceChar
  r3.takeWhile (fun c => c != '\n')

/-- `re.search(r'(\d+)\s*[xX]?\s*(.*)', s)`: the match starts at the
leftmost digit; returns `int(group(1))` and `group(2)`, or `none` when
the string has no digit. -/
def reSearchQty : List Char → Option (Nat × String)
  | [] => none
  | c :: t =>
    if c.isDigit then
      let ds := (c :: t).takeWhile Char.isDigit
      let rest := (c :: t).dropWhile Char.isDigit
      some (natOfDigits ds, String.mk (afterDigits rest))
    else reSearchQty t

/-- One `item_text` of the loop body of `add_to_cart`: strip, then
regex-extract `(qty, product_name_guess)`; with no digit present the
quantity defaults to 1 and the guess is the stripped text. -/
def parseItem (raw : String) : Nat × String :=
  let t := pyStrip raw
  match reSearchQty t.data with
  | some qg => qg
  | none => (1, t)

/-- Whether `a` is a prefix of `b` (on character lists). -/
def listStarts : List Char → List Char → Bool
  | [], _ => true
  | _ :: _, [] => false
  | a :: as, b :: bs => a == b && listStarts as bs

/-- Whether `needle` occurs contiguously inside `hay`. -/
def listContains (needle : List Char) : List Char → Bool
  | [] => needle.isEmpty
  | c :: t => listStarts needle (c :: t) || listContains needle t

/-- Python `needle in hay` on strings (substring containment). -/
def strContains (needle hay : String) : Bool :=
  listContains needle.data hay.data

/-- The fuzzy match of `add_to_cart`: first active product whose
lowercased name contains, or is contained in, the lowercased guess. -/
def matchProduct (ps : List Product) (guess : String) : Option Product :=
  ps.find? (fun p =>
    strContains (pyLower p.name) (pyLower guess) || strContains (pyLower guess) (pyLower p.name))

/-- The (product, quantity) pairs a given `items` string resolves to:
split on commas, parse each piece, drop the pieces that match no
active product.  `add_to_cart` upserts exactly these pairs in order. -/
def resolvedItems (db : DB) (items : String) : List (Product × Nat) :=
  (pySplitComma items).filterMap (fun piece =>
    (matchProduct (activeProducts db) (parseItem piece).2).map
      (fun p => (p, (parseItem piece).1)))

/-- `cart_item.quantity += qty` on the first row of the (cart, product)
pair, as `query(...).first()` returns it. -/
def incFirst (cid pid : Nat) (q : Int) : List CartItem → List CartItem
  | [] => []
  | ci :: rest =>
    if ci.cart_id == cid && ci.product_id == pid then
      { ci with quantity := ci.quantity + q } :: rest
    else ci :: incFirst cid pid q rest

/-- Loop state of `add_to_cart`: the summary strings, the queryable
rows (committed before the call, with this call's increments visible
through the identity map), the rows `add`ed but not yet flushed
(`autoflush=False`: queries do not see them), and the id counter. -/
structure CartLoopState where
  summary : List String
  visible : List CartItem
  pending : List CartItem
  ctr : Nat
deriving Repr, DecidableEq

/-- The upsert of one matched item: an existing row of the (cart,
product) pair — among the visible, committed rows — gets its quantity
incremented; otherwise a new row is `add`ed to the session pending
list. -/
def cartUpsert (cartId : Nat) (st : CartLoopState) (p : Product) (qty : Nat) :
    CartLoopState :=
  let entry := toString qty ++ "x " ++ p.name
  match st.visible.find? (fun ci => ci.cart_id == cartId && ci.product_id == p.id) with
  | some _ =>
    { st with
        summary := st.summary ++ [entry],
        visible := incFirst cartId p.id (qty : Int) st.visible }
  | none =>
    { st with
        summary := st.summary ++ [entry],
        pending := st.pending ++ [⟨st.ctr, cartId, p.id, (qty : Int)⟩],
        ctr := st.ctr + 1 }

/-- One iteration of the `for item_text in item_list` loop of
`add_to_cart`: parse, fuzzy-match, then upsert; a piece matching no
active product is skipped. -/
def cartStep (cartId : Nat) (allP : List Product) (st : CartLoopState) (piece : String) :
    CartLoopState :=
  match matchProduct allP (parseItem piece).2 with
  | none => st
  | some p => cartUpsert cartId st p (parseItem piece).1

/-- `add_to_cart(items, customer_phone)` tool.  Creates the cart row
lazily (committed at once, as in the source), runs the parse/match
loop, then the final `db.commit()` makes the pending rows durable. -/
def add_to_cart (db : DB) (items : String) (customer_phone : String) : String × DB :=
  let allP := activeProducts db
  let item_list := pySplitComma items
  let cartAndDb :=
    match db.carts.find? (fun c => c.user_phone == customer_phone) with
    | some c => (c, db)
    | none =>
      let c : Cart := ⟨db.nextId, customer_phone⟩
      (c, { db with carts := db.carts ++ [c], nextId := db.nextId + 1 })
  let cart := cartAndDb.1
  let db0 := cartAndDb.2
  let st := item_list.foldl (cartStep cart.id allP)
    ⟨[], db0.cartItems, [], db0.nextId⟩
  let db1 := { db0 with cartItems := st.visible ++ st.pending, nextId := st.ctr }
  let msg :=
    if st.summary.isEmpty then
      "I couldn\x27t identify the products to add. Please check product names."
    else
      "Added to cart: " ++ String.intercalate ", " st.summary
        ++ ". Type \x27cart\x27 to view your items or \x27buy\x27 to checkout."
  (msg, db1)

/-- The branch condition on which `view_cart(customer_phone)` answers
"Your cart is empty.": no cart row for the phone, or a cart with no
items. -/
def view_cart_isEmpty (db : DB) (customer_phone : String) : Bool :=
  match db.carts.find? (fun c => c.user_phone == customer_phone) with
  | none => true
  | some cart => (cartItemsOf db cart).isEmpty

/-! ## Invoice, payment details and payment confirmation tools -/

/-- The `cart_item.product` dereferences of the `generate_invoice`
loop: `none` models the ORM raising on a dangling product reference
(caught by the tool's generic `except`, before any write). -/
def resolveAll (db : DB) : List CartItem → Option (List (Product × Int))
  | [] => some []
  | ci :: rest =>
    match db.products.find? (fun p => p.id == ci.product_id) with
    | none => none
    | some p => (resolveAll db rest).map (fun tl => (p, ci.quantity) :: tl)

/-- Python `str()` of a scale-2 `Decimal` (every price/total is
`Numeric(10,2)`), also the `:.2f` float format for such values; the
argument is in cents. -/
def money2 (cents : Int) : String :=
  let frac : Int := cents % 100
  toString (cents / 100) ++ "." ++ (if frac < 10 then "0" else "") ++ toString frac

/-- `generate_invoice(customer_name, customer_address, customer_phone)`
tool: snapshots the cart lines into a PENDING order at current prices.
It never re-checks `isActive` or stock, never decrements stock, and
never deletes the cart. -/
def generate_invoice (db : DB) (customer_name customer_address customer_phone : String) :
    String × DB :=
  match db.carts.find? (fun c => c.user_phone == customer_phone) with
  | none => ("Your cart is empty! Please add items before checking out.", db)
  | some cart =>
    let cis := cartItemsOf db cart
    if cis.isEmpty then
      ("Your cart is empty! Please add items before checking out.", db)
    else
      match resolveAll db cis with
      | none => ("Error generating invoice. Please try again.", db)
      | some lines =>
        let total_amount := orderTotal lines
        let oid := db.nextId
        let order : Order :=
          { id := oid, userId := none, customerName := some customer_name,
            customerEmail := some "", customerPhone := some customer_phone,
            shippingAddress := some customer_address,
            paymentMethod := some "Bank Transfer", status := .PENDING,
            totalAmount := total_amount, paymentRef := none,
            paymentReceiptUrl := none, createdAt := oid }
        let db1 := { db with orders := db.orders ++ [order], nextId := oid + 1 }
        let db2 := { db1 with
            orderItems := db1.orderItems ++ mkOrderItems oid db1.nextId lines,
            nextId := db1.nextId + lines.length }
        let summary_str := String.intercalate "\n"
          (lines.map (fun pq =>
            toString pq.2 ++ "x " ++ pq.1.name ++ " (@ $" ++ money2 pq.1.price ++ ")"))
        ("📄 **INVOICE GENERATED** (Order #" ++ toString oid ++ ")\n\n"
          ++ "**Customer:** " ++ customer_name ++ "\n"
          ++ "**Address:** " ++ customer_address ++ "\n"
          ++ "**Items:**\n" ++ summary_str ++ "\n\n"
          ++ "**Total Amount:** $" ++ money2 total_amount ++ "\n\n"
          ++ "Please CONFIRM this invoice if details are correct. "
          ++ "Once confirmed, I will provide payment details.", db2)

/-- `get_payment_details(customer_phone)` tool: with no
`BusinessSettings` row or falsy `bank_details` it only reports that
nothing is configured; otherwise it returns the bank details and
deletes the customer's cart (cascading to its items). -/
def get_payment_details (db : DB) (customer_phone : String) : String × DB :=
  match db.settingsRows.head? with
  | none => ("Bank details are not currently configured. Please contact support.", db)
  | some settings =>
    if !(truthy settings.bank_details) then
      ("Bank details are not currently configured. Please contact support.", db)
    else
      let msg := "Please transfer the amount to the following bank account:\n\n"
        ++ settings.bank_details.getD "" ++ "\n\nOnce paid, please send a "
        ++ "slip/screenshot here for manual verification."
      match db.carts.find? (fun c => c.user_phone == customer_phone) with
      | none => (msg, db)
      | some cart =>
        (msg, { db with
            carts := db.carts.filter (fun c => c.id != cart.id),
            cartItems := db.cartItems.filter (fun ci => ci.cart_id != cart.id) })

/-- The `query(Order).filter(phone, PENDING).order_by(createdAt.desc()).first()`
lookup of `confirm_user_payment`. -/
def latestPending (db : DB) (customer_phone : String) : Option Order :=
  (db.orders.filter (fun o =>
      o.customerPhone == some customer_phone && o.status == OrderStatus.PENDING)).foldl
    (fun best o =>
      match best with
      | none => some o
      | some b => if o.createdAt > b.createdAt then some o else best)
    none

/-- `confirm_user_payment(customer_phone, transaction_ref)` tool: moves
the latest PENDING order of the phone to PAYMENT_REVIEW_REQUESTED,
attaching the reference when one is given; with no PENDING order it
returns a plain negative message and mutates nothing. -/
def confirm_user_payment (db : DB) (customer_phone : String) (transaction_ref : Option String) :
    String × DB :=
  match latestPending db customer_phone with
  | none =>
    ("I couldn\x27t find a pending order for your number. "
      ++ "Please make sure you have generated an invoice first.", db)
  | some order =>
    let order' := { order with
      status := OrderStatus.PAYMENT_REVIEW_REQUESTED,
      paymentRef := if truthy transaction_ref then transaction_ref else order.paymentRef }
    ("Thank you! I have marked your order #" ++ toString order.id
      ++ " as PAID/REVIEW REQUESTED.\nOur team will verify the payment and ship "
      ++ "your items soon.\nYou will receive a confirmation once verified.",
      { db with orders := db.orders.map (fun o => if o.id == order.id then order' else o) })

/-! ## Concrete states used to exercise the operations -/

/-- Catalog sample: the spec scenario's headphones ($99.99). -/
def prodHeadphones : Product := ⟨1, "Headphones", 9999, 10, true⟩

/-- Catalog sample: the spec scenario's mouse ($45.99). -/
def prodMouse : Product := ⟨2, "Mouse", 4599, 5, true⟩

/-- An active product with zero stock. -/
def prodLamp : Product := ⟨3, "Lamp", 1000, 0, true⟩

/-- A catalog-only state with no carts, orders or users. -/
def baseDB : DB := ⟨[prodHeadphones, prodMouse], [], [], [], [], [], [], 100⟩

/-- The spec scenario state: Jane's cart holds 2×Headphones and 1×Mouse. -/
def dbJane : DB :=
  ⟨[prodHeadphones, prodMouse], [], [], [], [⟨10, "0771234567"⟩],
    [⟨11, 10, 1, 2⟩, ⟨12, 10, 2, 1⟩], [], 100⟩

/-- A cart holding one unit of the zero-stock product. -/
def dbLamp : DB :=
  ⟨[prodLamp], [], [], [], [⟨10, "0775550000"⟩], [⟨11, 10, 3, 1⟩], [], 100⟩

/-- An existing customer with every profile field populated. -/
def userAlice : User :=
  ⟨1, "0771234567", some "alice@example.com", some "Alice", some "7 Old St"⟩

/-- State holding `userAlice` and the sample catalog. -/
def dbAlice : DB := ⟨[prodHeadphones, prodMouse], [userAlice], [], [], [], [], [], 100⟩

/-- A valid order request for Alice's phone under a different name. -/
def reqBob : PlaceOrderRequest :=
  ⟨"0771234567", "Bob", some "bob@example.com", "34 New St", "Cash on Delivery", [⟨2, 1⟩]⟩

/-- A request naming a product id that is not in the catalog. -/
def reqBadProduct : PlaceOrderRequest :=
  ⟨"0770001111", "Jane", none, "12 Main St", "Cash on Delivery", [⟨99, 1⟩]⟩

/-- An order awaiting admin payment review. -/
def orderPRR : Order :=
  ⟨1, none, some "Jane", some "", some "0771234567", some "12 Main St",
    some "Bank Transfer", .PAYMENT_REVIEW_REQUESTED, 24597, none, none, 0⟩

/-- State with one order in PAYMENT_REVIEW_REQUESTED. -/
def dbAdmin : DB := ⟨[prodMouse], [], [orderPRR], [], [], [], [], 100⟩

/-- State with a cart but no `BusinessSettings` row at all. -/
def dbNoBank : DB :=
  ⟨[prodMouse], [], [], [], [⟨10, "0771234567"⟩], [⟨11, 10, 2, 1⟩], [], 100⟩

end Ecom

namespace Ecom

/-! ## Helper lemmas -/

theorem foldl_add_sum {α : Type} (f : α → Int) :
    ∀ (l : List α) (a : Int), l.foldl (fun t x => t + f x) a = a + (l.map f).sum := by
  intro l
  induction l with
  | nil => intro a; simp
  | cons x t ih => intro a; simp [ih, add_assoc]

theorem find?_append_of_none {α : Type} (p : α → Bool) (l1 l2 : List α)
    (h : l1.find? p = none) : (l1 ++ l2).find? p = l2.find? p := by
  induction l1 with
  | nil => simp
  | cons a t ih =>
    rw [List.find?_cons] at h
    cases hp : p a with
    | true => rw [hp] at h; cases h
    | false =>
      rw [hp] at h
      simp only [List.cons_append, List.find?_cons, hp]
      exact ih h

theorem valueStr_PRR_inj {st : OrderStatus}
    (h : st.valueStr = "PAYMENT_REVIEW_REQUESTED") : st = .PAYMENT_REVIEW_REQUESTED := by
  cases st
  case PAYMENT_REVIEW_REQUESTED => rfl
  all_goals simp [OrderStatus.valueStr] at h

theorem find?_map_of_id_eq (l : List Order) (oid : Nat) (f : Order → Order)
    (hid : ∀ o, (f o).id = o.id) :
    (l.map f).find? (fun x => x.id == oid) = (l.find? (fun x => x.id == oid)).map f := by
  induction l with
  | nil => rfl
  | cons a t ih =>
    simp only [List.map_cons, List.find?_cons, hid a]
    cases h : (a.id == oid) with
    | true => rfl
    | false => exact ih

/-! ## Claim C1 -/

/-- C1: every failing `place_order` call — missing/inactive product,
insufficient stock, or a storage failure at commit — leaves the
database exactly as it was: no `Order`, no `OrderItem`, no stock
decrement survives the rollback. -/
theorem claimC1 (db : DB) (req : PlaceOrderRequest) (commitOk : Bool)
    (h : (place_order db req commitOk).1.isErr = true) :
    (place_order db req commitOk).2 = db := by
  unfold place_order at h ⊢
  cases hv : validateItems db req.items with
  | error cd => simp [hv]
  | ok lines =>
    cases commitOk with
    | true => simp [hv, PlaceResult.isErr] at h
    | false => simp [hv]

/-- C1 witness: a request for an unknown product id fails and leaves
the sample state untouched. -/
theorem claimC1_witness : (place_order baseDB reqBadProduct true).2 = baseDB :=
  claimC1 baseDB reqBadProduct true (by decide)

/-! ## Claim C5 -/

/-- C5: a status-update request whose uppercased target is not one of
the six known statuses is rejected with HTTP 400 and the state —
including the addressed order — is unchanged. -/
theorem claimC5 (db : DB) (oid : Nat) (s : String) (ok : Bool) (o : Order)
    (hfind : db.orders.find? (fun x => x.id == oid) = some o)
    (hval : valid_statuses.contains (pyUpper s) = false) :
    update_order_status db oid s ok = ⟨.error (400, "Invalid status"), db, none⟩ := by
  have hmem : pyUpper s ∉ valid_statuses := by simpa using hval
  unfold update_order_status
  rw [hfind]
  simp [hmem]

/-- C5 witness: updating the sample order to "REFUNDED" is rejected
and the state is unchanged. -/
theorem claimC5_witness :
    update_order_status dbAdmin 1 "Refunded" true
      = ⟨.error (400, "Invalid status"), dbAdmin, none⟩ :=
  claimC5 dbAdmin 1 "Refunded" true orderPRR (by decide) (by decide)

/-! ## Claim C8 -/

/-- C8: with no PENDING order for the phone, `confirm_user_payment`
returns the plain "no pending order" message and mutates nothing. -/
theorem claimC8 (db : DB) (phone : String) (tref : Option String)
    (h : db.orders.all
      (fun o => !(o.customerPhone == some phone && o.status == OrderStatus.PENDING)) = true) :
    confirm_user_payment db phone tref
      = ("I couldn\x27t find a pending order for your number. "
          ++ "Please make sure you have generated an invoice first.", db) := by
  have hfilter : db.orders.filter
      (fun o => o.customerPhone == some phone && o.status == OrderStatus.PENDING) = [] := by
    rw [List.filter_eq_nil_iff]
    intro a ha
    have hb := List.all_eq_true.mp h a ha
    rw [Bool.not_eq_true'] at hb
    simp [hb]
  unfold confirm_user_payment latestPending
  rw [hfilter]
  rfl

/-- C8 witness: the phone with only a PAYMENT_REVIEW_REQUESTED order
gets the negative message and the state is unchanged. -/
theorem claimC8_witness :
    confirm_user_payment dbAdmin "0771234567" none
      = ("I couldn\x27t find a pending order for your number. "
          ++ "Please make sure you have generated an invoice first.", dbAdmin) :=
  claimC8 dbAdmin "0771234567" none (by decide)

/-! ## Claim C10 -/

/-- C10: with no `BusinessSettings` row or a falsy `bank_details`
field, `get_payment_details` answers the "not currently configured"
message with the state unchanged; conversely any state change implies
configured bank details. -/
theorem claimC10 :
    (∀ (db : DB) (phone : String),
      (∀ s, db.settingsRows.head? = some s → truthy s.bank_details = false) →
      get_payment_details db phone
        = ("Bank details are not currently configured. Please contact support.", db)) ∧
    (∀ (db : DB) (phone : String),
      (get_payment_details db phone).2 ≠ db →
      ∃ s, db.settingsRows.head? = some s ∧ truthy s.bank_details = true) := by
  constructor
  · intro db phone h
    unfold get_payment_details
    cases hs : db.settingsRows.head? with
    | none => rfl
    | some s => simp [h s hs]
  · intro db phone hne
    unfold get_payment_details at hne
    cases hs : db.settingsRows.head? with
    | none => rw [hs] at hne; simp at hne
    | some s =>
      rw [hs] at hne
      by_cases ht : truthy s.bank_details = true
      · exact ⟨s, rfl, ht⟩
      · rw [Bool.not_eq_true] at ht
        simp [ht] at hne

/-- C10 witness: with no settings row the cart survives and the
message is the unconfigured one. -/
theorem claimC10_witness :
    get_payment_details dbNoBank "0771234567"
      = ("Bank details are not currently configured. Please contact support.", dbNoBank) :=
  claimC10.1 dbNoBank "0771234567" (by intro s hs; simp [dbNoBank] at hs)

/-! ## Claim C4 -/

/-- C4: updating a PAYMENT_REVIEW_REQUESTED order to PAID always
succeeds with the status durably PAID in the committed state, for
either transport outcome; every notification attempt happens against
the already-committed state; and a notification is attempted only when
the target uppercases to PAID and the previous status was
PAYMENT_REVIEW_REQUESTED. -/
theorem claimC4 :
    (∀ (db : DB) (oid : Nat) (notifyOk : Bool) (o : Order),
      db.orders.find? (fun x => x.id == oid) = some o →
      o.status = .PAYMENT_REVIEW_REQUESTED →
      (update_order_status db oid "PAID" notifyOk).result = .ok "success" ∧
      ((update_order_status db oid "PAID" notifyOk).db).orders.find? (fun x => x.id == oid)
        = some { o with status := .PAID } ∧
      (∀ d, (update_order_status db oid "PAID" notifyOk).notifAttempt = some d →
        d = (update_order_status db oid "PAID" notifyOk).db)) ∧
    (∀ (db : DB) (oid : Nat) (s : String) (notifyOk : Bool) (d : DB),
      (update_order_status db oid s notifyOk).notifAttempt = some d →
      pyUpper s = "PAID" ∧
      ∃ o, db.orders.find? (fun x => x.id == oid) = some o ∧
        o.status = .PAYMENT_REVIEW_REQUESTED) := by
  constructor
  · intro db oid ok o hfind hst
    have hup : pyUpper "PAID" = "PAID" := by decide
    have hcon : valid_statuses.contains (pyUpper "PAID") = true := by decide
    unfold update_order_status
    rw [hfind]
    simp only [hcon, Bool.not_true, Bool.false_eq_true, if_false]
    refine ⟨trivial, ?_, ?_⟩
    · rw [find?_map_of_id_eq _ _ _ (fun x => by
        by_cases h : (x.id == o.id) = true <;> simp [h])]
      rw [hfind]
      simp [hup, statusOfValue]
    · intro d hd
      by_cases hc : (pyUpper "PAID" == "PAID" && o.status.valueStr == "PAYMENT_REVIEW_REQUESTED"
          && truthy o.customerPhone) = true
      · simp only [hc, if_true] at hd
        simpa using hd.symm
      · simp only [Bool.not_eq_true] at hc
        simp only [hc, Bool.false_eq_true, if_false] at hd
        cases hd
  · intro db oid s ok d h
    unfold update_order_status at h
    cases hfind : db.orders.find? (fun x => x.id == oid) with
    | none => rw [hfind] at h; cases h
    | some order =>
      rw [hfind] at h
      by_cases hval : valid_statuses.contains (pyUpper s) = true
      · simp only [hval, Bool.not_true, Bool.false_eq_true, if_false] at h
        by_cases hc : (pyUpper s == "PAID"
            && order.status.valueStr == "PAYMENT_REVIEW_REQUESTED"
            && truthy order.customerPhone) = true
        · rw [Bool.and_assoc] at hc
          rcases Bool.and_eq_true_iff.mp hc with ⟨h1, h23⟩
          rcases Bool.and_eq_true_iff.mp h23 with ⟨h2, _⟩
          refine ⟨by simpa using h1, order, rfl, ?_⟩
          have h2' : order.status.valueStr = "PAYMENT_REVIEW_REQUESTED" := by simpa using h2
          exact valueStr_PRR_inj h2'
        · simp only [Bool.not_eq_true] at hc
          simp only [hc, Bool.false_eq_true, if_false] at h
          cases h
      · simp only [Bool.not_eq_true] at hval
        simp only [hval, Bool.not_false, if_true] at h
        cases h

/-- C4 witness: the PAYMENT_REVIEW_REQUESTED sample order moved to
PAID with a failing transport still ends PAID with a success response,
and the concrete notification attempt saw the committed state. -/
theorem claimC4_witness :
    (update_order_status dbAdmin 1 "PAID" false).result = .ok "success" ∧
    ((update_order_status dbAdmin 1 "PAID" false).db).orders.find? (fun x => x.id == 1)
      = some { orderPRR with status := .PAID } ∧
    pyUpper "PAID" = "PAID" :=
  ⟨(claimC4.1 dbAdmin 1 false orderPRR (by decide) rfl).1,
   (claimC4.1 dbAdmin 1 false orderPRR (by decide) rfl).2.1,
   (claimC4.2 dbAdmin 1 "PAID" false
      ((update_order_status dbAdmin 1 "PAID" false).db) (by decide)).1⟩

/-! ## Claim C6 -/

/-- C6 counterexample: the claim says a populated profile field is
never overwritten, but placing an order for Alice's phone under the
name "Bob" overwrites her populated name (and address). -/
theorem claimC6_counterexample :
    userAlice.name = some "Alice" ∧
    (place_order dbAlice reqBob true).1.isErr = false ∧
    ((place_order dbAlice reqBob true).2).users.map (fun u => u.name) = [some "Bob"] :=
  ⟨rfl, by decide, by decide⟩

/-- C6 amended: in the find-or-create step, `name` and `address` are
overwritten whenever the request supplies a non-empty value (populated
or not) and kept otherwise; only `email` is updated solely when
supplied and absent; no populated field is ever replaced by an empty
value. -/
theorem claimC6_amended (u : User) (req : PlaceOrderRequest) :
    ((updateExistingUser u req).email = u.email ∨
      (truthy req.user_email = true ∧ truthy u.email = false ∧
        (updateExistingUser u req).email = req.user_email)) ∧
    (req.user_name.isEmpty = false → (updateExistingUser u req).name = some req.user_name) ∧
    (req.user_name.isEmpty = true → (updateExistingUser u req).name = u.name) ∧
    (req.shipping_address.isEmpty = false →
      (updateExistingUser u req).address = some req.shipping_address) ∧
    (req.shipping_address.isEmpty = true → (updateExistingUser u req).address = u.address) ∧
    (truthy u.email = true → (updateExistingUser u req).email = u.email) ∧
    (truthy u.name = true → truthy (updateExistingUser u req).name = true) ∧
    (truthy u.address = true → truthy (updateExistingUser u req).address = true) := by
  unfold updateExistingUser
  cases hn : req.user_name.isEmpty <;> cases ha : req.shipping_address.isEmpty <;>
    cases he : truthy req.user_email <;> cases hue : truthy u.email <;>
      simp_all [truthy]

/-- C6 witness: for Alice's populated record and Bob's request, the
amended rules give name "Bob" while the populated email is kept. -/
theorem claimC6_witness :
    (updateExistingUser userAlice reqBob).name = some "Bob" ∧
    (updateExistingUser userAlice reqBob).email = userAlice.email :=
  ⟨(claimC6_amended userAlice reqBob).2.1 (by decide),
   (claimC6_amended userAlice reqBob).2.2.2.2.2.1 (by decide)⟩

/-! ## Claim C2 -/

/-- C2 counterexample: on the spec's own scenario state the
generate-invoice call succeeds — a PENDING order with total $245.97 is
created — yet the cart is not deleted: a subsequent view does not find
it empty, contradicting the claim. -/
theorem claimC2_counterexample :
    ((generate_invoice dbJane "Jane" "12 Main St" "0771234567").2).orders.map
      (fun o => (o.status, o.totalAmount)) = [(.PENDING, 24597)] ∧
    ((generate_invoice dbJane "Jane" "12 Main St" "0771234567").2).carts = dbJane.carts ∧
    view_cart_isEmpty ((generate_invoice dbJane "Jane" "12 Main St" "0771234567").2)
      "0771234567" = false :=
  ⟨by decide, by decide, by decide⟩

/-- `view_cart_isEmpty` only reads the cart tables. -/
theorem view_cart_isEmpty_congr (db1 db2 : DB) (phone : String)
    (hc : db1.carts = db2.carts) (hci : db1.cartItems = db2.cartItems) :
    view_cart_isEmpty db1 phone = view_cart_isEmpty db2 phone := by
  unfold view_cart_isEmpty cartItemsOf
  rw [hc, hci]

/-- C2 amended: a successful generate-invoice on a non-empty cart
creates a PENDING order whose total is the sum over cart lines of
quantity × current unit price, but the cart and its items are left in
place (the cart is only cleared later by `get_payment_details`); a
subsequent view still finds the cart non-empty. -/
theorem claimC2_amended (db : DB) (name addr phone : String) (cart : Cart)
    (lines : List (Product × Int))
    (hcart : db.carts.find? (fun c => c.user_phone == phone) = some cart)
    (hne : (cartItemsOf db cart).isEmpty = false)
    (hres : resolveAll db (cartItemsOf db cart) = some lines) :
    ((generate_invoice db name addr phone).2).orders
      = db.orders ++ [{
          id := db.nextId, userId := none, customerName := some name,
          customerEmail := some "", customerPhone := some phone,
          shippingAddress := some addr, paymentMethod := some "Bank Transfer",
          status := .PENDING, totalAmount := (lines.map (fun pq => pq.1.price * pq.2)).sum,
          paymentRef := none, paymentReceiptUrl := none, createdAt := db.nextId }] ∧
    ((generate_invoice db name addr phone).2).carts = db.carts ∧
    ((generate_invoice db name addr phone).2).cartItems = db.cartItems ∧
    view_cart_isEmpty ((generate_invoice db name addr phone).2) phone = false := by
  have hsum : orderTotal lines = (lines.map (fun pq => pq.1.price * pq.2)).sum := by
    unfold orderTotal
    rw [foldl_add_sum (fun pq => pq.1.price * pq.2) lines 0, zero_add]
  have hcarts : ((generate_invoice db name addr phone).2).carts = db.carts := by
    unfold generate_invoice
    rw [hcart]
    simp [hne, hres]
  have hitems : ((generate_invoice db name addr phone).2).cartItems = db.cartItems := by
    unfold generate_invoice
    rw [hcart]
    simp [hne, hres]
  refine ⟨?_, hcarts, hitems, ?_⟩
  · unfold generate_invoice
    rw [hcart]
    simp [hne, hres, hsum]
  · rw [view_cart_isEmpty_congr _ db phone hcarts hitems]
    unfold view_cart_isEmpty
    rw [hcart]
    simpa [cartItemsOf] using hne

/-- C2 witness: on the scenario state the amended claim's hypotheses
hold and the cart survives the successful invoice. -/
theorem claimC2_witness :
    ((generate_invoice dbJane "Jane" "12 Main St" "0771234567").2).carts = dbJane.carts ∧
    view_cart_isEmpty ((generate_invoice dbJane "Jane" "12 Main St" "0771234567").2)
      "0771234567" = false :=
  ⟨(claimC2_amended dbJane "Jane" "12 Main St" "0771234567" ⟨10, "0771234567"⟩
      [(prodHeadphones, 2), (prodMouse, 1)] (by decide) (by decide) (by decide)).2.1,
   (claimC2_amended dbJane "Jane" "12 Main St" "0771234567" ⟨10, "0771234567"⟩
      [(prodHeadphones, 2), (prodMouse, 1)] (by decide) (by decide) (by decide)).2.2.2⟩

/-! ## Claim C3 -/

/-- C3 counterexample: a cart holding one unit of an active product
with zero stock is still invoiced — the call creates the order instead
of aborting, and no stock is decremented — contradicting the claim
that generate-invoice re-checks stock and decrements it. -/
theorem claimC3_counterexample :
    prodLamp.stockQuantity = 0 ∧
    ((generate_invoice dbLamp "Jo" "5 Side St" "0775550000").2).orders.length = 1 ∧
    ((generate_invoice dbLamp "Jo" "5 Side St" "0775550000").2).products = dbLamp.products :=
  ⟨rfl, by decide, by decide⟩

/-- C3 amended: generate-invoice snapshots the cart into a PENDING
order without any availability re-check: product rows (hence stock)
are never modified by the call, and the order is created for any
resolvable non-empty cart regardless of stock or active flag. -/
theorem claimC3_amended :
    (∀ (db : DB) (name addr phone : String),
      ((generate_invoice db name addr phone).2).products = db.products) ∧
    (∀ (db : DB) (name addr phone : String) (cart : Cart) (lines : List (Product × Int)),
      db.carts.find? (fun c => c.user_phone == phone) = some cart →
      (cartItemsOf db cart).isEmpty = false →
      resolveAll db (cartItemsOf db cart) = some lines →
      ((generate_invoice db name addr phone).2).orders.length = db.orders.length + 1) := by
  constructor
  · intro db name addr phone
    unfold generate_invoice
    cases hc : db.carts.find? (fun c => c.user_phone == phone) with
    | none => rfl
    | some cart =>
      cases he : (cartItemsOf db cart).isEmpty with
      | true => simp [he]
      | false =>
        cases hr : resolveAll db (cartItemsOf db cart) with
        | none => simp [he, hr]
        | some lines => simp [he, hr]
  · intro db name addr phone cart lines hcart hne hres
    unfold generate_invoice
    rw [hcart]
    simp [hne, hres]

/-- C3 witness: on the zero-stock cart the amended claim applies — the
catalog rows are untouched and exactly one order is appended. -/
theorem claimC3_witness :
    ((generate_invoice dbLamp "Jo" "5 Side St" "0775550000").2).products = dbLamp.products ∧
    ((generate_invoice dbLamp "Jo" "5 Side St" "0775550000").2).orders.length
      = dbLamp.orders.length + 1 :=
  ⟨claimC3_amended.1 dbLamp "Jo" "5 Side St" "0775550000",
   claimC3_amended.2 dbLamp "Jo" "5 Side St" "0775550000" ⟨10, "0775550000"⟩
     [(prodLamp, 1)] (by decide) (by decide) (by decide)⟩

/-! ## Claim C9 -/

theorem incFirst_ge_one (cid pid : Nat) (q : Int) (hq : 1 ≤ q) :
    ∀ (l : List CartItem), (∀ ci ∈ l, 1 ≤ ci.quantity) →
      ∀ ci ∈ incFirst cid pid q l, 1 ≤ ci.quantity := by
  intro l
  induction l with
  | nil => intro _ ci h; cases h
  | cons a t ih =>
    intro hall ci hci
    unfold incFirst at hci
    by_cases hc : (a.cart_id == cid && a.product_id == pid) = true
    · rw [if_pos hc] at hci
      rcases List.mem_cons.mp hci with h | h
      · subst h
        have := hall a (List.mem_cons_self a t)
        dsimp only
        omega
      · exact hall ci (List.mem_cons_of_mem a h)
    · rw [if_neg hc] at hci
      rcases List.mem_cons.mp hci with h | h
      · subst h; exact hall ci (List.mem_cons_self ci t)
      · exact ih (fun x hx => hall x (List.mem_cons_of_mem a hx)) ci h

theorem cartUpsert_ge_one (cid : Nat) (st : CartLoopState) (p : Product) (qty : Nat)
    (h1 : ∀ ci ∈ st.visible, 1 ≤ ci.quantity)
    (h2 : ∀ ci ∈ st.pending, 1 ≤ ci.quantity)
    (hq : 1 ≤ qty) :
    (∀ ci ∈ (cartUpsert cid st p qty).visible, 1 ≤ ci.quantity) ∧
    (∀ ci ∈ (cartUpsert cid st p qty).pending, 1 ≤ ci.quantity) := by
  unfold cartUpsert
  cases hf : st.visible.find? (fun ci => ci.cart_id == cid && ci.product_id == p.id) with
  | some c =>
    exact ⟨incFirst_ge_one cid p.id _ (by exact_mod_cast hq) st.visible h1, h2⟩
  | none =>
    refine ⟨h1, ?_⟩
    intro ci hci
    rcases List.mem_append.mp hci with h | h
    · exact h2 ci h
    · rw [List.mem_singleton] at h
      subst h
      show (1 : Int) ≤ (qty : Int)
      exact_mod_cast hq

theorem foldl_cartStep_ge_one (cid : Nat) (allP : List Product) :
    ∀ (pieces : List String) (st : CartLoopState),
      (∀ ci ∈ st.visible, 1 ≤ ci.quantity) →
      (∀ ci ∈ st.pending, 1 ≤ ci.quantity) →
      (∀ piece ∈ pieces, 1 ≤ (parseItem piece).1) →
      (∀ ci ∈ (pieces.foldl (cartStep cid allP) st).visible, 1 ≤ ci.quantity) ∧
      (∀ ci ∈ (pieces.foldl (cartStep cid allP) st).pending, 1 ≤ ci.quantity) := by
  intro pieces
  induction pieces with
  | nil => intro st h1 h2 _; exact ⟨h1, h2⟩
  | cons piece rest ih =>
    intro st h1 h2 hq
    rw [List.foldl_cons]
    have hstep :
        (∀ ci ∈ (cartStep cid allP st piece).visible, 1 ≤ ci.quantity) ∧
        (∀ ci ∈ (cartStep cid allP st piece).pending, 1 ≤ ci.quantity) := by
      unfold cartStep
      cases hm : matchProduct allP (parseItem piece).2 with
      | none => exact ⟨h1, h2⟩
      | some p =>
        exact cartUpsert_ge_one cid st p (parseItem piece).1 h1 h2
          (hq piece (List.mem_cons_self piece rest))
    exact ih _ hstep.1 hstep.2 (fun x hx => hq x (List.mem_cons_of_mem piece hx))

theorem add_to_cart_cartItems_shape (db : DB) (items phone : String) :
    ∃ (cid n : Nat),
      ((add_to_cart db items phone).2).cartItems
        = ((pySplitComma items).foldl (cartStep cid (activeProducts db))
            ⟨[], db.cartItems, [], n⟩).visible
          ++ ((pySplitComma items).foldl (cartStep cid (activeProducts db))
            ⟨[], db.cartItems, [], n⟩).pending := by
  unfold add_to_cart
  cases hc : db.carts.find? (fun c => c.user_phone == phone) with
  | some c => exact ⟨c.id, db.nextId, rfl⟩
  | none => exact ⟨db.nextId, db.nextId + 1, rfl⟩

/-- C9 counterexample: the input "0x Mouse" is accepted — the tool
answers with its success message — yet it creates a CartItem row with
quantity 0, contradicting the claimed quantity ≥ 1 invariant. -/
theorem claimC9_counterexample :
    (add_to_cart baseDB "0x Mouse" "0770009999").1
      = "Added to cart: 0x Mouse. Type \x27cart\x27 to view your items or \x27buy\x27 to checkout." ∧
    ((add_to_cart baseDB "0x Mouse" "0770009999").2).cartItems.map (fun ci => ci.quantity)
      = [0] :=
  ⟨by decide, by decide⟩

/-- C9 amended: every CartItem left by `add_to_cart` has quantity ≥ 1
provided every piece of the input parses to a quantity ≥ 1 (an
explicit "0x" count is the only way to go lower: a piece with no digit
defaults to quantity 1) and the pre-existing rows all had quantity ≥ 1. -/
theorem claimC9_amended (db : DB) (items phone : String)
    (h0 : ∀ ci ∈ db.cartItems, 1 ≤ ci.quantity)
    (hq : ∀ piece ∈ pySplitComma items, 1 ≤ (parseItem piece).1) :
    ∀ ci ∈ ((add_to_cart db items phone).2).cartItems, 1 ≤ ci.quantity := by
  obtain ⟨cid, n, heq⟩ := add_to_cart_cartItems_shape db items phone
  rw [heq]
  intro ci hci
  have hinv := foldl_cartStep_ge_one cid (activeProducts db) (pySplitComma items)
    ⟨[], db.cartItems, [], n⟩ h0 (by intro x hx; cases hx) hq
  rcases List.mem_append.mp hci with h | h
  · exact hinv.1 ci h
  · exact hinv.2 ci h

/-- C9 witness: for the input "2x Mouse" on the empty-cart sample
state, the single created row satisfies the amended bound. -/
theorem claimC9_witness : 1 ≤ (CartItem.mk 101 100 2 2).quantity :=
  claimC9_amended baseDB "2x Mouse" "0770001111" (by intro ci h; cases h) (by decide)
    ⟨101, 100, 2, 2⟩ (by decide)

/-! ## Claim C7 -/

theorem foldl_cartStep_eq (cid : Nat) (allP : List Product) :
    ∀ (pieces : List String) (st : CartLoopState),
      pieces.foldl (cartStep cid allP) st
        = (pieces.filterMap (fun piece =>
            (matchProduct allP (parseItem piece).2).map
              (fun x => (x, (parseItem piece).1)))).foldl
            (fun acc pq => cartUpsert cid acc pq.1 pq.2) st := by
  intro pieces
  induction pieces with
  | nil => intro st; rfl
  | cons piece rest ih =>
    intro st
    cases hm : matchProduct allP (parseItem piece).2 with
    | none =>
      simp only [List.foldl_cons, List.filterMap_cons, hm, Option.map_none']
      rw [show cartStep cid allP st piece = st from by unfold cartStep; rw [hm]]
      exact ih st
    | some p =>
      simp only [List.foldl_cons, List.filterMap_cons, hm, Option.map_some']
      rw [show cartStep cid allP st piece = cartUpsert cid st p (parseItem piece).1 from by
        unfold cartStep; rw [hm]]
      exact ih (cartUpsert cid st p (parseItem piece).1)

theorem incFirst_cons (cid pid : Nat) (q : Int) (a : CartItem) (t : List CartItem) :
    incFirst cid pid q (a :: t)
      = if (a.cart_id == cid && a.product_id == pid) then
          { a with quantity := a.quantity + q } :: t
        else a :: incFirst cid pid q t := rfl

theorem incFirst_cons_false (cid pid : Nat) (q : Int) (a : CartItem) (t : List CartItem)
    (ha : (a.cart_id == cid && a.product_id == pid) = false) :
    incFirst cid pid q (a :: t) = a :: incFirst cid pid q t := by
  rw [incFirst_cons, if_neg]
  simp [ha]

theorem incFirst_append_none (cid pid : Nat) (q : Int) :
    ∀ (l1 l2 : List CartItem),
      (∀ ci ∈ l1, (ci.cart_id == cid && ci.product_id == pid) = false) →
      incFirst cid pid q (l1 ++ l2) = l1 ++ incFirst cid pid q l2 := by
  intro l1
  induction l1 with
  | nil => intro l2 _; rfl
  | cons a t ih =>
    intro l2 h
    have ha := h a (List.mem_cons_self a t)
    rw [List.cons_append, incFirst_cons_false cid pid q a (t ++ l2) ha,
      ih l2 (fun x hx => h x (List.mem_cons_of_mem a hx)), List.cons_append]

/-- First `add_to_cart` call of the C7 scenario: no cart for the phone
yet, the input resolves to a single (product, quantity) pair, and the
fresh cart id clashes with no stored row — a cart row and one CartItem
row are created. -/
theorem add_to_cart_new_cart (db : DB) (items phone : String) (p : Product) (q : Nat)
    (hres : resolvedItems db items = [(p, q)])
    (hc : db.carts.find? (fun c => c.user_phone == phone) = none)
    (hfind0 : db.cartItems.find?
      (fun ci => ci.cart_id == db.nextId && ci.product_id == p.id) = none) :
    (add_to_cart db items phone).2
      = { db with
          carts := db.carts ++ [⟨db.nextId, phone⟩],
          cartItems := db.cartItems ++ [⟨db.nextId + 1, db.nextId, p.id, (q : Int)⟩],
          nextId := db.nextId + 2 } := by
  unfold add_to_cart
  rw [hc]
  dsimp only
  rw [foldl_cartStep_eq]
  rw [show (pySplitComma items).filterMap (fun piece =>
      (matchProduct (activeProducts db) (parseItem piece).2).map
        (fun x => (x, (parseItem piece).1))) = [(p, q)] from hres]
  rw [List.foldl_cons, List.foldl_nil]
  unfold cartUpsert
  dsimp only
  rw [hfind0]
  rfl

/-- Second `add_to_cart` call of the C7 scenario: the cart exists and
already holds a row for the resolved product — that row's quantity is
incremented in place and no new row is created. -/
theorem add_to_cart_existing_row (db : DB) (items phone : String) (c : Cart)
    (p : Product) (q : Nat) (ci0 : CartItem)
    (hres : resolvedItems db items = [(p, q)])
    (hc : db.carts.find? (fun x => x.user_phone == phone) = some c)
    (hfind : db.cartItems.find?
      (fun ci => ci.cart_id == c.id && ci.product_id == p.id) = some ci0) :
    (add_to_cart db items phone).2
      = { db with cartItems := incFirst c.id p.id (q : Int) db.cartItems } := by
  unfold add_to_cart
  rw [hc]
  dsimp only
  rw [foldl_cartStep_eq]
  rw [show (pySplitComma items).filterMap (fun piece =>
      (matchProduct (activeProducts db) (parseItem piece).2).map
        (fun x => (x, (parseItem piece).1))) = [(p, q)] from hres]
  rw [List.foldl_cons, List.foldl_nil]
  unfold cartUpsert
  dsimp only
  rw [hfind]
  simp

/-- C7: two `add_to_cart` calls for the same product with quantities
q1 then q2, starting from a customer with no cart and a state whose
rows do not use the fresh cart id, leave exactly one CartItem row for
the (cart, product) pair, with quantity q1 + q2. -/
theorem claimC7 (db : DB) (phone : String) (p : Product) (q1 q2 : Nat) (s1 s2 : String)
    (h1 : resolvedItems db s1 = [(p, q1)])
    (h2 : resolvedItems db s2 = [(p, q2)])
    (hc : db.carts.find? (fun c => c.user_phone == phone) = none)
    (hci : ∀ ci ∈ db.cartItems, ci.cart_id ≠ db.nextId) :
    ((add_to_cart (add_to_cart db s1 phone).2 s2 phone).2).cartItems.filter
        (fun ci => ci.cart_id == db.nextId && ci.product_id == p.id)
      = [⟨db.nextId + 1, db.nextId, p.id, (q1 : Int) + (q2 : Int)⟩] := by
  have hpredf : ∀ ci ∈ db.cartItems,
      (ci.cart_id == db.nextId && ci.product_id == p.id) = false := by
    intro ci h
    have hne := hci ci h
    have hb : (ci.cart_id == db.nextId) = false := by simpa using hne
    simp [hb]
  have hfind0 : db.cartItems.find?
      (fun ci => ci.cart_id == db.nextId && ci.product_id == p.id) = none := by
    rw [List.find?_eq_none]
    intro ci hmem
    simp [hpredf ci hmem]
  have key1 := add_to_cart_new_cart db s1 phone p q1 h1 hc hfind0
  rw [key1]
  have h2' : resolvedItems { db with
      carts := db.carts ++ [⟨db.nextId, phone⟩],
      cartItems := db.cartItems ++ [⟨db.nextId + 1, db.nextId, p.id, (q1 : Int)⟩],
      nextId := db.nextId + 2 } s2 = [(p, q2)] := h2
  have hc2 : ({ db with
      carts := db.carts ++ [⟨db.nextId, phone⟩],
      cartItems := db.cartItems ++ [⟨db.nextId + 1, db.nextId, p.id, (q1 : Int)⟩],
      nextId := db.nextId + 2 } : DB).carts.find? (fun x => x.user_phone == phone)
      = some ⟨db.nextId, phone⟩ := by
    show (db.carts ++ [(⟨db.nextId, phone⟩ : Cart)]).find? (fun x => x.user_phone == phone)
      = some (⟨db.nextId, phone⟩ : Cart)
    rw [find?_append_of_none _ _ _ hc]
    simp
  have hfind1 : ({ db with
      carts := db.carts ++ [⟨db.nextId, phone⟩],
      cartItems := db.cartItems ++ [⟨db.nextId + 1, db.nextId, p.id, (q1 : Int)⟩],
      nextId := db.nextId + 2 } : DB).cartItems.find?
        (fun ci => ci.cart_id == (⟨db.nextId, phone⟩ : Cart).id && ci.product_id == p.id)
      = some ⟨db.nextId + 1, db.nextId, p.id, (q1 : Int)⟩ := by
    show (db.cartItems ++ [(⟨db.nextId + 1, db.nextId, p.id, (q1 : Int)⟩ : CartItem)]).find?
        (fun ci => ci.cart_id == db.nextId && ci.product_id == p.id)
      = some (⟨db.nextId + 1, db.nextId, p.id, (q1 : Int)⟩ : CartItem)
    rw [find?_append_of_none _ _ _ hfind0]
    simp
  have key2 := add_to_cart_existing_row _ s2 phone ⟨db.nextId, phone⟩ p q2
    ⟨db.nextId + 1, db.nextId, p.id, (q1 : Int)⟩ h2' hc2 hfind1
  rw [key2]
  show (incFirst db.nextId p.id (q2 : Int)
      (db.cartItems ++ [(⟨db.nextId + 1, db.nextId, p.id, (q1 : Int)⟩ : CartItem)])).filter
      (fun ci => ci.cart_id == db.nextId && ci.product_id == p.id)
    = [(⟨db.nextId + 1, db.nextId, p.id, (q1 : Int) + (q2 : Int)⟩ : CartItem)]
  rw [incFirst_append_none _ _ _ _ _ hpredf]
  rw [List.filter_append]
  rw [List.filter_eq_nil_iff.mpr (fun ci hmem => by simp [hpredf ci hmem])]
  unfold incFirst
  simp

/-- C7 witness: adding "2x Mouse" then "3x Mouse" for a fresh phone on
the sample catalog leaves exactly one row with quantity 5. -/
theorem claimC7_witness :
    ((add_to_cart (add_to_cart baseDB "2x Mouse" "0770001111").2 "3x Mouse"
        "0770001111").2).cartItems.filter
        (fun ci => ci.cart_id == 100 && ci.product_id == 2)
      = [⟨101, 100, 2, 5⟩] :=
  claimC7 baseDB "0770001111" prodMouse 2 3 "2x Mouse" "3x Mouse"
    (by decide) (by decide) (by decide) (by intro ci h; cases h)

end Ecom



